import Mathlib

set_option maxHeartbeats 1000000

/-!
Shallow embedding of src/twisty/anim.ts (namespace Twisty.Anim):
the Dispatcher (observer fan-out), the playback Model and the
FrameScheduler.  Durations and timestamps are modelled as rationals
(the source uses JS numbers; all the logic here is control flow and
exact arithmetic with tempo = 1.5 = 3/2).  Mutation is modelled by
explicit state passing; dispatcher notifications are modelled as
event logs; the host requestAnimationFrame primitive is modelled as a
counter of pending (requested but not yet delivered) frame callbacks.
-/

/-- Modelled from the spec: TimeLine.Direction with its numeric encoding
Forwards = +1, Paused = 0, Backwards = -1 (the TimeLine module is not among
the sources; the spec fixes this encoding in its data-model section). -/
inductive Direction
| Forwards
| Paused
| Backwards
deriving DecidableEq, Repr

/-- The numeric value of a direction, used as a signed rate multiplier. -/
def Direction.toRat : Direction → ℚ
| .Forwards => 1
| .Paused => 0
| .Backwards => -1

/-- Modelled from the spec: TimeLine.BreakPointType, the granularity at which
the breakpoint source is queried. -/
inductive BreakPointType
| Move
| EntireMoveSequence
deriving DecidableEq, Repr

/-- Modelled from the spec: the external breakpoint source interface
(TimeLine.BreakPointModel): first/last breakpoints of the timeline and the
next breakpoint from a given cursor in a given direction and granularity. -/
structure BreakPointModel where
  firstBreakPoint : ℚ
  lastBreakPoint : ℚ
  breakPoint : Direction → BreakPointType → ℚ → ℚ

/-- The Dispatcher's two observer sets.  Observers are identified by a
numeric identity; a JS Set keyed by reference equality with insertion-order
iteration is modelled as a duplicate-free list in insertion order. -/
structure Dispatcher where
  cursorObservers : List ℕ
  directionObservers : List ℕ
deriving DecidableEq, Repr

/-- Dispatcher.registerCursorObserver: throws on a duplicate (left component
Except.error, state returned unchanged), otherwise adds the observer. -/
def Dispatcher.registerCursorObserver (d : Dispatcher) (observer : ℕ) :
    Except String Unit × Dispatcher :=
  if observer ∈ d.cursorObservers then
    (Except.error "Duplicate cursor observer added.", d)
  else
    (Except.ok (), { d with cursorObservers := d.cursorObservers ++ [observer] })

/-- Dispatcher.registerDirectionObserver: symmetric to the cursor case. -/
def Dispatcher.registerDirectionObserver (d : Dispatcher) (observer : ℕ) :
    Except String Unit × Dispatcher :=
  if observer ∈ d.directionObservers then
    (Except.error "Duplicate direction observer added.", d)
  else
    (Except.ok (), { d with directionObservers := d.directionObservers ++ [observer] })

/-- Dispatcher.animCursorChanged: the list of observer invocations performed
by one dispatch, in iteration order. -/
def Dispatcher.animCursorChanged (d : Dispatcher) (cursor : ℚ) : List (ℕ × ℚ) :=
  d.cursorObservers.map (fun observer => (observer, cursor))

/-- Dispatcher.animDirectionChanged: the list of observer invocations
performed by one dispatch, in iteration order. -/
def Dispatcher.animDirectionChanged (d : Dispatcher) (direction : Direction) :
    List (ℕ × Direction) :=
  d.directionObservers.map (fun observer => (observer, direction))

/-- The mutable state of one Model together with its owned FrameScheduler
(animating flag) and the host frame-callback primitive (pendingFrames counts
callbacks requested from the host and not yet delivered).  directionEvents
and cursorEvents log the dispatcher notifications in order.  Field defaults
mirror the source initializers. -/
structure ModelState where
  cursor : ℚ := 0
  lastCursorTime : ℚ := 0
  direction : Direction := Direction.Paused
  breakPointType : BreakPointType := BreakPointType.EntireMoveSequence
  animating : Bool := false
  pendingFrames : ℕ := 0
  directionEvents : List Direction := []
  cursorEvents : List ℚ := []
deriving DecidableEq, Repr

/-- The fixed tempo (source: 1.5). -/
def tempo : ℚ := 3 / 2

/-- FrameScheduler.start, acting on the fused state: if not animating, set
the flag and request one frame callback from the host. -/
def ModelState.schedulerStart (s : ModelState) : ModelState :=
  if s.animating then s
  else { s with animating := true, pendingFrames := s.pendingFrames + 1 }

/-- FrameScheduler.stop, acting on the fused state: clear the flag (an
already-requested host callback is not cancelled). -/
def ModelState.schedulerStop (s : ModelState) : ModelState :=
  { s with animating := false }

/-- FrameScheduler.singleFrame: start(); stop(). -/
def ModelState.schedulerSingleFrame (s : ModelState) : ModelState :=
  s.schedulerStart.schedulerStop

/-- Model.timeScaling: direction (as a number) times tempo. -/
def ModelState.timeScaling (s : ModelState) : ℚ :=
  s.direction.toRat * tempo

/-- Model.setDirection: set the field and dispatch animDirectionChanged. -/
def ModelState.setDirection (s : ModelState) (direction : Direction) : ModelState :=
  { s with direction := direction,
           directionEvents := s.directionEvents ++ [direction] }

/-- Model.updateCursor: if paused, only record the timestamp; otherwise
integrate elapsed time (clamped to be nonnegative) into the cursor, then
query the breakpoint from the previous cursor and clamp / pause / stop the
scheduler on overshoot. -/
def ModelState.updateCursor (bp : BreakPointModel) (s : ModelState)
    (timeStamp : ℚ) : ModelState :=
  if s.direction = Direction.Paused then
    { s with lastCursorTime := timeStamp }
  else
    let previousCursor := s.cursor
    let elapsedRaw := timeStamp - s.lastCursorTime
    let elapsed := if elapsedRaw < 0 then 0 else elapsedRaw
    let s1 : ModelState :=
      { s with cursor := s.cursor + elapsed * s.timeScaling,
               lastCursorTime := timeStamp }
    let breakPoint := bp.breakPoint s1.direction s1.breakPointType previousCursor
    let isForwards := s1.direction = Direction.Forwards
    let isPastBreakPoint :=
      if isForwards then s1.cursor > breakPoint else s1.cursor < breakPoint
    if isPastBreakPoint then
      (({ s1 with cursor := breakPoint }).setDirection Direction.Paused).schedulerStop
    else
      s1

/-- Model.frame: the scheduler callback; updateCursor then dispatch
animCursorChanged with the (possibly clamped) cursor. -/
def ModelState.frame (bp : BreakPointModel) (s : ModelState)
    (timeStamp : ℚ) : ModelState :=
  let s1 := s.updateCursor bp timeStamp
  { s1 with cursorEvents := s1.cursorEvents ++ [s1.cursor] }

/-- FrameScheduler.animFrame, acting on the fused state: run the callback
(Model.frame), then, checking the flag after the callback body, chain one
more host frame request iff still animating. -/
def ModelState.animFrame (bp : BreakPointModel) (s : ModelState)
    (timeStamp : ℚ) : ModelState :=
  let s1 := s.frame bp timeStamp
  if s1.animating then { s1 with pendingFrames := s1.pendingFrames + 1 }
  else s1

/-- Host frame delivery: if at least one callback has been requested, the
host consumes one request and invokes animFrame with its timestamp. -/
def ModelState.fireFrame (bp : BreakPointModel) (s : ModelState)
    (timeStamp : ℚ) : ModelState :=
  if s.pendingFrames = 0 then s
  else ModelState.animFrame bp { s with pendingFrames := s.pendingFrames - 1 } timeStamp

/-- Model.setBreakPointType. -/
def ModelState.setBreakPointType (s : ModelState) (b : BreakPointType) : ModelState :=
  { s with breakPointType := b }

/-- Model.isPaused. -/
def ModelState.isPaused (s : ModelState) : Bool :=
  decide (s.direction = Direction.Paused)

/-- Model.animateDirection: no-op if the direction is unchanged; otherwise
reconcile the cursor at the current wall-clock time under the old direction,
set and notify the new direction, and stop or start the scheduler.  The
source reads performance.now(); the current time is passed explicitly. -/
def ModelState.animateDirection (bp : BreakPointModel) (s : ModelState)
    (now : ℚ) (direction : Direction) : ModelState :=
  if s.direction = direction then s
  else
    let s1 := s.updateCursor bp now
    let s2 := s1.setDirection direction
    if direction = Direction.Paused then s2.schedulerStop else s2.schedulerStart

/-- Model.skipAndPauseTo: pause, set the cursor directly, request a single
frame. -/
def ModelState.skipAndPauseTo (bp : BreakPointModel) (s : ModelState)
    (now : ℚ) (duration : ℚ) : ModelState :=
  let s1 := s.animateDirection bp now Direction.Paused
  let s2 := { s1 with cursor := duration }
  s2.schedulerSingleFrame

/-- Model.playForward. -/
def ModelState.playForward (bp : BreakPointModel) (s : ModelState) (now : ℚ) : ModelState :=
  (s.setBreakPointType BreakPointType.EntireMoveSequence).animateDirection bp now Direction.Forwards

/-- Model.pause. -/
def ModelState.pause (bp : BreakPointModel) (s : ModelState) (now : ℚ) : ModelState :=
  s.animateDirection bp now Direction.Paused

/-- Model.playBackward. -/
def ModelState.playBackward (bp : BreakPointModel) (s : ModelState) (now : ℚ) : ModelState :=
  (s.setBreakPointType BreakPointType.EntireMoveSequence).animateDirection bp now Direction.Backwards

/-- Model.skipToStart. -/
def ModelState.skipToStart (bp : BreakPointModel) (s : ModelState) (now : ℚ) : ModelState :=
  s.skipAndPauseTo bp now bp.firstBreakPoint

/-- Model.skipToEnd. -/
def ModelState.skipToEnd (bp : BreakPointModel) (s : ModelState) (now : ℚ) : ModelState :=
  s.skipAndPauseTo bp now bp.lastBreakPoint

/-- Model.stepForward. -/
def ModelState.stepForward (bp : BreakPointModel) (s : ModelState) (now : ℚ) : ModelState :=
  (s.setBreakPointType BreakPointType.Move).animateDirection bp now Direction.Forwards

/-- Model.stepBackward. -/
def ModelState.stepBackward (bp : BreakPointModel) (s : ModelState) (now : ℚ) : ModelState :=
  (s.setBreakPointType BreakPointType.Move).animateDirection bp now Direction.Backwards

/-- Model.togglePausePlayForward. -/
def ModelState.togglePausePlayForward (bp : BreakPointModel) (s : ModelState) (now : ℚ) : ModelState :=
  if s.isPaused then s.playForward bp now else s.pause bp now

/-- The five motion commands of the command surface. -/
inductive MotionCommand
| playForwardCmd
| playBackwardCmd
| pauseCmd
| stepForwardCmd
| stepBackwardCmd
deriving DecidableEq, Repr

/-- Apply a motion command to a model state at a wall-clock time. -/
def MotionCommand.apply : MotionCommand → BreakPointModel → ModelState → ℚ → ModelState
| .playForwardCmd, bp, s, now => s.playForward bp now
| .playBackwardCmd, bp, s, now => s.playBackward bp now
| .pauseCmd, bp, s, now => s.pause bp now
| .stepForwardCmd, bp, s, now => s.stepForward bp now
| .stepBackwardCmd, bp, s, now => s.stepBackward bp now

/-- The direction a motion command requests. -/
def MotionCommand.dir : MotionCommand → Direction
| .playForwardCmd => Direction.Forwards
| .playBackwardCmd => Direction.Backwards
| .pauseCmd => Direction.Paused
| .stepForwardCmd => Direction.Forwards
| .stepBackwardCmd => Direction.Backwards

/-- The breakpoint granularity after a motion command's granularity write
(pause performs no write). -/
def MotionCommand.gran : MotionCommand → BreakPointType → BreakPointType
| .playForwardCmd, _ => BreakPointType.EntireMoveSequence
| .playBackwardCmd, _ => BreakPointType.EntireMoveSequence
| .pauseCmd, b => b
| .stepForwardCmd, _ => BreakPointType.Move
| .stepBackwardCmd, _ => BreakPointType.Move

/-- The breakpoint updateCursor queries: current direction, current
granularity, pre-advance cursor. -/
def ModelState.nextBreakPoint (bp : BreakPointModel) (s : ModelState) : ℚ :=
  bp.breakPoint s.direction s.breakPointType s.cursor

/-- The cursor value produced by updateCursor's integration step for a frame
at the given timestamp (before any breakpoint clamping). -/
def ModelState.advancedCursor (s : ModelState) (timeStamp : ℚ) : ℚ :=
  s.cursor +
    (if timeStamp - s.lastCursorTime < 0 then 0 else timeStamp - s.lastCursorTime) *
      s.timeScaling

/-- Generic embedding of the FrameScheduler class alone, for claims about
the scheduler itself: the state is the flag, the pending-host-request
counter, and the state acted on by the supplied callback (the callback is
threaded through the whole scheduler state, since in the source it closes
over an object that can call back into this scheduler). -/
structure Sched (σ : Type) where
  animating : Bool := false
  pending : ℕ := 0
  inner : σ

/-- FrameScheduler.animFrame: run the callback, then chain one more host
request iff the flag is (still) set — checked after the callback body. -/
def Sched.animFrame {σ : Type} (cb : Sched σ → ℚ → Sched σ) (fs : Sched σ)
    (timeStamp : ℚ) : Sched σ :=
  let fs1 := cb fs timeStamp
  if fs1.animating then { fs1 with pending := fs1.pending + 1 } else fs1

/-- FrameScheduler.start. -/
def Sched.start {σ : Type} (fs : Sched σ) : Sched σ :=
  if fs.animating then fs
  else { fs with animating := true, pending := fs.pending + 1 }

/-- FrameScheduler.stop. -/
def Sched.stop {σ : Type} (fs : Sched σ) : Sched σ :=
  { fs with animating := false }

/-- FrameScheduler.singleFrame: start(); stop(). -/
def Sched.singleFrame {σ : Type} (fs : Sched σ) : Sched σ :=
  fs.start.stop

/-- Host frame delivery for the generic scheduler. -/
def Sched.fire {σ : Type} (cb : Sched σ → ℚ → Sched σ) (fs : Sched σ)
    (ts : ℚ) : Sched σ :=
  if fs.pending = 0 then fs
  else Sched.animFrame cb { fs with pending := fs.pending - 1 } ts

/-- A concrete breakpoint source whose next breakpoint is always 1. -/
def bpNear : BreakPointModel := ⟨0, 100, fun _ _ _ => 1⟩

/-- A concrete breakpoint source whose next breakpoint is always 100. -/
def bpFar : BreakPointModel := ⟨0, 100, fun _ _ _ => 100⟩

/-- Identity callback on the generic scheduler, for concrete instances. -/
def cbId : Sched Unit → ℚ → Sched Unit := fun fs _ => fs

theorem updateCursor_eq (bp : BreakPointModel) (s : ModelState) (ts : ℚ)
    (h : s.direction ≠ Direction.Paused) :
    s.updateCursor bp ts =
      if (if s.direction = Direction.Forwards
            then s.advancedCursor ts > s.nextBreakPoint bp
            else s.advancedCursor ts < s.nextBreakPoint bp) then
        { s with cursor := s.nextBreakPoint bp, lastCursorTime := ts,
                 direction := Direction.Paused,
                 directionEvents := s.directionEvents ++ [Direction.Paused],
                 animating := false }
      else { s with cursor := s.advancedCursor ts, lastCursorTime := ts } := by
  unfold ModelState.updateCursor ModelState.advancedCursor ModelState.nextBreakPoint
  rw [if_neg h]
  simp only [ModelState.setDirection, ModelState.schedulerStop]



/-- Claim C1: in a per-frame cursor update while the direction is Forwards or
Backwards, updateCursor queries the breakpoint source with the current
direction, the current granularity and the pre-advance cursor (nextBreakPoint);
if the integrated cursor (advancedCursor) strictly overshoots that breakpoint,
the cursor is clamped to exactly the breakpoint, a Paused direction-changed
notification is dispatched and the scheduler is stopped; if it lands exactly
on the breakpoint, no clamp, no pause and no notification occur. -/
theorem c1_frame_breakpoint_clamp (bp : BreakPointModel) (s : ModelState) (ts : ℚ)
    (h : s.direction = Direction.Forwards ∨ s.direction = Direction.Backwards) :
    (s.direction = Direction.Forwards → s.nextBreakPoint bp < s.advancedCursor ts →
        s.updateCursor bp ts =
          { s with cursor := s.nextBreakPoint bp, lastCursorTime := ts,
                   direction := Direction.Paused,
                   directionEvents := s.directionEvents ++ [Direction.Paused],
                   animating := false })
    ∧ (s.direction = Direction.Backwards → s.advancedCursor ts < s.nextBreakPoint bp →
        s.updateCursor bp ts =
          { s with cursor := s.nextBreakPoint bp, lastCursorTime := ts,
                   direction := Direction.Paused,
                   directionEvents := s.directionEvents ++ [Direction.Paused],
                   animating := false })
    ∧ (s.advancedCursor ts = s.nextBreakPoint bp →
        s.updateCursor bp ts =
          { s with cursor := s.advancedCursor ts, lastCursorTime := ts }) := by
  have hne : s.direction ≠ Direction.Paused := by
    rcases h with h | h <;> simp [h]
  have key := updateCursor_eq bp s ts hne
  refine ⟨?_, ?_, ?_⟩
  · intro hF hlt
    rw [key, if_pos]
    simp [hF, hlt]
  · intro hB hlt
    rw [key, if_pos]
    have : ¬ s.direction = Direction.Forwards := by simp [hB]
    simp [this, hlt]
  · intro heq
    rw [key, if_neg]
    split
    · simp [heq]
    · simp [heq]

/-- Witness for claim C1 at a concrete overshooting input: cursor 0, direction
Forwards, frame at time 2 with next breakpoint 1: the cursor is clamped to 1,
the direction becomes Paused with one notification, the scheduler stops. -/
theorem c1_frame_breakpoint_clamp_witness :
    ModelState.updateCursor bpNear { direction := Direction.Forwards } 2 =
      { cursor := 1, lastCursorTime := 2, direction := Direction.Paused,
        breakPointType := BreakPointType.EntireMoveSequence, animating := false,
        pendingFrames := 0, directionEvents := [Direction.Paused], cursorEvents := [] } := by
  have h := (c1_frame_breakpoint_clamp bpNear { direction := Direction.Forwards } 2 (Or.inl rfl)).1 rfl
    (by norm_num [ModelState.nextBreakPoint, ModelState.advancedCursor,
      ModelState.timeScaling, Direction.toRat, tempo, bpNear])
  simpa [bpNear, ModelState.nextBreakPoint] using h

theorem updateCursor_pendingFrames (bp : BreakPointModel) (s : ModelState) (ts : ℚ) :
    (s.updateCursor bp ts).pendingFrames = s.pendingFrames := by
  by_cases h : s.direction = Direction.Paused
  · unfold ModelState.updateCursor
    rw [if_pos h]
  · rw [updateCursor_eq bp s ts h]
    split <;> split <;> rfl

theorem updateCursor_breakPointType (bp : BreakPointModel) (s : ModelState) (ts : ℚ) :
    (s.updateCursor bp ts).breakPointType = s.breakPointType := by
  by_cases h : s.direction = Direction.Paused
  · unfold ModelState.updateCursor
    rw [if_pos h]
  · rw [updateCursor_eq bp s ts h]
    split <;> split <;> rfl

theorem updateCursor_cursorEvents (bp : BreakPointModel) (s : ModelState) (ts : ℚ) :
    (s.updateCursor bp ts).cursorEvents = s.cursorEvents := by
  by_cases h : s.direction = Direction.Paused
  · unfold ModelState.updateCursor
    rw [if_pos h]
  · rw [updateCursor_eq bp s ts h]
    split <;> split <;> rfl

theorem updateCursor_lastCursorTime (bp : BreakPointModel) (s : ModelState) (ts : ℚ) :
    (s.updateCursor bp ts).lastCursorTime = ts := by
  by_cases h : s.direction = Direction.Paused
  · unfold ModelState.updateCursor
    rw [if_pos h]
  · rw [updateCursor_eq bp s ts h]
    split <;> split <;> rfl

theorem updateCursor_directionEvents_cases (bp : BreakPointModel) (s : ModelState) (ts : ℚ) :
    (s.updateCursor bp ts).directionEvents = s.directionEvents ∨
      (s.updateCursor bp ts).directionEvents = s.directionEvents ++ [Direction.Paused] := by
  by_cases h : s.direction = Direction.Paused
  · unfold ModelState.updateCursor
    rw [if_pos h]
    exact Or.inl rfl
  · rw [updateCursor_eq bp s ts h]
    split <;> split <;> first | exact Or.inl rfl | exact Or.inr rfl

theorem updateCursor_no_pause_eq (bp : BreakPointModel) (s : ModelState) (ts : ℚ)
    (h : (s.updateCursor bp ts).direction = s.direction) :
    (s.updateCursor bp ts).directionEvents = s.directionEvents ∧
      (s.updateCursor bp ts).animating = s.animating := by
  by_cases hp : s.direction = Direction.Paused
  · unfold ModelState.updateCursor
    rw [if_pos hp]
    exact ⟨rfl, rfl⟩
  · rw [updateCursor_eq bp s ts hp] at h ⊢
    by_cases hc : (if s.direction = Direction.Forwards
        then s.advancedCursor ts > s.nextBreakPoint bp
        else s.advancedCursor ts < s.nextBreakPoint bp)
    · rw [if_pos hc] at h
      exact absurd h.symm hp
    · rw [if_neg hc]
      exact ⟨rfl, rfl⟩

theorem animateDirection_ne (bp : BreakPointModel) (s : ModelState) (now : ℚ)
    (d : Direction) (h : s.direction ≠ d) :
    s.animateDirection bp now d =
      (if d = Direction.Paused
        then ((s.updateCursor bp now).setDirection d).schedulerStop
        else ((s.updateCursor bp now).setDirection d).schedulerStart) := by
  unfold ModelState.animateDirection
  rw [if_neg h]

theorem animateDirection_direction (bp : BreakPointModel) (s : ModelState) (now : ℚ)
    (d : Direction) : (s.animateDirection bp now d).direction = d := by
  by_cases h : s.direction = d
  · unfold ModelState.animateDirection
    rw [if_pos h]
    exact h
  · rw [animateDirection_ne bp s now d h]
    by_cases hd : d = Direction.Paused
    · rw [if_pos hd]
      simp [ModelState.schedulerStop, ModelState.setDirection, hd]
    · rw [if_neg hd]
      unfold ModelState.schedulerStart
      split <;> simp [ModelState.setDirection]

theorem animateDirection_breakPointType (bp : BreakPointModel) (s : ModelState) (now : ℚ)
    (d : Direction) : (s.animateDirection bp now d).breakPointType = s.breakPointType := by
  by_cases h : s.direction = d
  · unfold ModelState.animateDirection
    rw [if_pos h]
  · rw [animateDirection_ne bp s now d h]
    by_cases hd : d = Direction.Paused
    · rw [if_pos hd]
      simp [ModelState.schedulerStop, ModelState.setDirection, updateCursor_breakPointType]
    · rw [if_neg hd]
      unfold ModelState.schedulerStart
      split <;> simp [ModelState.setDirection, updateCursor_breakPointType]

theorem animateDirection_directionEvents_ne (bp : BreakPointModel) (s : ModelState) (now : ℚ)
    (d : Direction) (h : s.direction ≠ d)
    (hnp : (s.updateCursor bp now).direction = s.direction) :
    (s.animateDirection bp now d).directionEvents = s.directionEvents ++ [d] := by
  rw [animateDirection_ne bp s now d h]
  have h1 := (updateCursor_no_pause_eq bp s now hnp).1
  by_cases hd : d = Direction.Paused
  · rw [if_pos hd]
    simp [ModelState.schedulerStop, ModelState.setDirection, h1]
  · rw [if_neg hd]
    unfold ModelState.schedulerStart
    split <;> simp [ModelState.setDirection, h1]

theorem animateDirection_self (bp : BreakPointModel) (s : ModelState) (now : ℚ)
    (d : Direction) (h : s.direction = d) : s.animateDirection bp now d = s := by
  unfold ModelState.animateDirection
  rw [if_pos h]

theorem setBreakPointType_self (s : ModelState) (b : BreakPointType)
    (h : s.breakPointType = b) : s.setBreakPointType b = s := by
  unfold ModelState.setBreakPointType
  rw [← h]

theorem MotionCommand.apply_eq (c : MotionCommand) (bp : BreakPointModel)
    (s : ModelState) (now : ℚ) :
    c.apply bp s now =
      (s.setBreakPointType (c.gran s.breakPointType)).animateDirection bp now c.dir := by
  cases c <;> rfl

theorem MotionCommand.gran_idem (c : MotionCommand) (b : BreakPointType) :
    c.gran (c.gran b) = c.gran b := by
  cases c <;> rfl

/-- Claim C2 (amended): calling the same motion command twice in a row is
idempotent: the second call returns the state unchanged (no cursor
reconciliation, no notification, no scheduler change).  When the requested
direction equals the current one, the call only (re)writes the breakpoint
granularity; when it differs and the first call's reconciliation does not
itself pause at a breakpoint, the pair of calls produces exactly one
direction-changed notification. -/
theorem c2_repeated_command_idempotent (c : MotionCommand) (bp : BreakPointModel) (s : ModelState) (now now' : ℚ) :
    c.apply bp (c.apply bp s now) now' = c.apply bp s now
    ∧ (s.direction = c.dir →
        c.apply bp s now = s.setBreakPointType (c.gran s.breakPointType))
    ∧ (s.direction ≠ c.dir →
        ((s.setBreakPointType (c.gran s.breakPointType)).updateCursor bp now).direction = s.direction →
        (c.apply bp s now).directionEvents = s.directionEvents ++ [c.dir]) := by
  have hdir : (c.apply bp s now).direction = c.dir := by
    rw [MotionCommand.apply_eq]
    exact animateDirection_direction bp _ now c.dir
  have hbpt : (c.apply bp s now).breakPointType = c.gran s.breakPointType := by
    rw [MotionCommand.apply_eq]
    rw [animateDirection_breakPointType]
    rfl
  refine ⟨?_, ?_, ?_⟩
  · rw [MotionCommand.apply_eq c bp (c.apply bp s now) now']
    rw [hbpt, MotionCommand.gran_idem]
    rw [setBreakPointType_self _ _ hbpt]
    exact animateDirection_self bp _ now' c.dir hdir
  · intro h
    rw [MotionCommand.apply_eq]
    exact animateDirection_self bp _ now c.dir h
  · intro h hnp
    rw [MotionCommand.apply_eq]
    have h1 : (s.setBreakPointType (c.gran s.breakPointType)).direction = s.direction := rfl
    have h2 := animateDirection_directionEvents_ne bp
      (s.setBreakPointType (c.gran s.breakPointType)) now c.dir (by rw [h1]; exact h)
      (by rw [h1]; exact hnp)
    rw [h2]
    simp [ModelState.setBreakPointType]

theorem updateCursor_paused (bp : BreakPointModel) (s : ModelState) (ts : ℚ)
    (h : s.direction = Direction.Paused) :
    s.updateCursor bp ts = { s with lastCursorTime := ts } := by
  unfold ModelState.updateCursor
  rw [if_pos h]

theorem animateDirection_cursor_ne (bp : BreakPointModel) (s : ModelState) (now : ℚ)
    (d : Direction) (h : s.direction ≠ d) :
    (s.animateDirection bp now d).cursor = (s.updateCursor bp now).cursor := by
  rw [animateDirection_ne bp s now d h]
  by_cases hd : d = Direction.Paused
  · rw [if_pos hd]
    simp [ModelState.schedulerStop, ModelState.setDirection]
  · rw [if_neg hd]
    unfold ModelState.schedulerStart
    split <;> simp [ModelState.setDirection]

theorem animateDirection_lastCursorTime_ne (bp : BreakPointModel) (s : ModelState) (now : ℚ)
    (d : Direction) (h : s.direction ≠ d) :
    (s.animateDirection bp now d).lastCursorTime = now := by
  rw [animateDirection_ne bp s now d h]
  by_cases hd : d = Direction.Paused
  · rw [if_pos hd]
    simp [ModelState.schedulerStop, ModelState.setDirection, updateCursor_lastCursorTime]
  · rw [if_neg hd]
    unfold ModelState.schedulerStart
    split <;> simp [ModelState.setDirection, updateCursor_lastCursorTime]

theorem animateDirection_pendingFrames_paused (bp : BreakPointModel) (s : ModelState)
    (now : ℚ) (h : s.direction ≠ Direction.Paused) :
    (s.animateDirection bp now Direction.Paused).pendingFrames = s.pendingFrames := by
  rw [animateDirection_ne bp s now Direction.Paused h, if_pos rfl]
  simp [ModelState.schedulerStop, ModelState.setDirection, updateCursor_pendingFrames]

theorem animateDirection_animating_paused (bp : BreakPointModel) (s : ModelState)
    (now : ℚ) (h : s.direction ≠ Direction.Paused) :
    (s.animateDirection bp now Direction.Paused).animating = false := by
  rw [animateDirection_ne bp s now Direction.Paused h, if_pos rfl]
  simp [ModelState.schedulerStop]

theorem animateDirection_cursorEvents_ne (bp : BreakPointModel) (s : ModelState) (now : ℚ)
    (d : Direction) (h : s.direction ≠ d) :
    (s.animateDirection bp now d).cursorEvents = s.cursorEvents := by
  rw [animateDirection_ne bp s now d h]
  by_cases hd : d = Direction.Paused
  · rw [if_pos hd]
    simp [ModelState.schedulerStop, ModelState.setDirection, updateCursor_cursorEvents]
  · rw [if_neg hd]
    unfold ModelState.schedulerStart
    split <;> simp [ModelState.setDirection, updateCursor_cursorEvents]

theorem animateDirection_directionEvents_cases_ne (bp : BreakPointModel) (s : ModelState)
    (now : ℚ) (d : Direction) (h : s.direction ≠ d) :
    (s.animateDirection bp now d).directionEvents = s.directionEvents ++ [d] ∨
      (s.animateDirection bp now d).directionEvents =
        s.directionEvents ++ [Direction.Paused, d] := by
  rw [animateDirection_ne bp s now d h]
  rcases updateCursor_directionEvents_cases bp s now with hu | hu
  · left
    by_cases hd : d = Direction.Paused
    · rw [if_pos hd]
      simp [ModelState.schedulerStop, ModelState.setDirection, hu]
    · rw [if_neg hd]
      unfold ModelState.schedulerStart
      split <;> simp [ModelState.setDirection, hu]
  · right
    by_cases hd : d = Direction.Paused
    · rw [if_pos hd]
      simp [ModelState.schedulerStop, ModelState.setDirection, hu]
    · rw [if_neg hd]
      unfold ModelState.schedulerStart
      split <;> simp [ModelState.setDirection, hu]

theorem fireFrame_paused_eq (bp : BreakPointModel) (s : ModelState) (ts : ℚ)
    (h : s.direction = Direction.Paused) (ha : s.animating = false)
    (hp : s.pendingFrames ≠ 0) :
    s.fireFrame bp ts =
      { s with pendingFrames := s.pendingFrames - 1, lastCursorTime := ts,
               cursorEvents := s.cursorEvents ++ [s.cursor] } := by
  unfold ModelState.fireFrame
  rw [if_neg hp]
  unfold ModelState.animFrame ModelState.frame
  rw [updateCursor_paused bp _ ts (by simpa using h)]
  simp [ha]

theorem fireFrame_paused_cursor (bp : BreakPointModel) (s : ModelState) (ts : ℚ)
    (h : s.direction = Direction.Paused) :
    (s.fireFrame bp ts).cursor = s.cursor := by
  unfold ModelState.fireFrame
  split
  · rfl
  · unfold ModelState.animFrame ModelState.frame
    rw [updateCursor_paused bp _ ts (by simpa using h)]
    dsimp only
    split <;> rfl

theorem schedulerSingleFrame_not_animating (s : ModelState) (h : s.animating = false) :
    s.schedulerSingleFrame =
      { s with animating := false, pendingFrames := s.pendingFrames + 1 } := by
  unfold ModelState.schedulerSingleFrame ModelState.schedulerStart ModelState.schedulerStop
  rw [if_neg (by simp [h])]

/-- Claim C3 (amended): starting Paused, playForward then pause leaves the
cursor unchanged provided no wall-clock time elapses between the two calls
(the pause timestamp is not after the playForward timestamp) and the
breakpoint source's next forward breakpoint from the cursor is not behind
the cursor. -/
theorem c3_play_pause_round_trip (bp : BreakPointModel) (s : ModelState) (t1 t2 : ℚ)
    (hP : s.direction = Direction.Paused) (ht : t2 ≤ t1)
    (hbp : s.cursor ≤ bp.breakPoint Direction.Forwards BreakPointType.EntireMoveSequence s.cursor) :
    ((s.playForward bp t1).pause bp t2).cursor = s.cursor := by
  have hne1 : (s.setBreakPointType BreakPointType.EntireMoveSequence).direction ≠ Direction.Forwards := by
    simp [ModelState.setBreakPointType, hP]
  have hrd : (s.playForward bp t1).direction = Direction.Forwards := by
    unfold ModelState.playForward
    exact animateDirection_direction bp _ t1 _
  have hrb : (s.playForward bp t1).breakPointType = BreakPointType.EntireMoveSequence := by
    unfold ModelState.playForward
    rw [animateDirection_breakPointType]
    rfl
  have hrc : (s.playForward bp t1).cursor = s.cursor := by
    unfold ModelState.playForward
    rw [animateDirection_cursor_ne bp _ t1 _ hne1]
    rw [updateCursor_paused bp _ t1 (by simp [ModelState.setBreakPointType, hP])]
    simp [ModelState.setBreakPointType]
  have hrt : (s.playForward bp t1).lastCursorTime = t1 := by
    unfold ModelState.playForward
    exact animateDirection_lastCursorTime_ne bp _ t1 _ hne1
  have hne2 : (s.playForward bp t1).direction ≠ Direction.Paused := by
    rw [hrd]
    simp
  have hadv : (s.playForward bp t1).advancedCursor t2 = s.cursor := by
    unfold ModelState.advancedCursor
    rw [hrt, hrc]
    by_cases hlt : t2 - t1 < 0
    · rw [if_pos hlt]
      ring
    · rw [if_neg hlt]
      have h0 : t2 - t1 = 0 := le_antisymm (by linarith) (not_lt.mp hlt)
      rw [h0]
      ring
  have hnb : (s.playForward bp t1).nextBreakPoint bp =
      bp.breakPoint Direction.Forwards BreakPointType.EntireMoveSequence s.cursor := by
    unfold ModelState.nextBreakPoint
    rw [hrd, hrb, hrc]
  unfold ModelState.pause
  rw [animateDirection_cursor_ne bp _ t2 _ hne2]
  rw [updateCursor_eq bp _ t2 hne2]
  have hsel : (if (s.playForward bp t1).direction = Direction.Forwards
      then (s.playForward bp t1).advancedCursor t2 > (s.playForward bp t1).nextBreakPoint bp
      else (s.playForward bp t1).advancedCursor t2 < (s.playForward bp t1).nextBreakPoint bp) =
      ((s.playForward bp t1).advancedCursor t2 > (s.playForward bp t1).nextBreakPoint bp) :=
    if_pos hrd
  simp only [hsel]
  rw [if_neg (not_lt.mpr (by rw [hadv, hnb]; exact hbp))]
  exact hadv

theorem skipAndPauseTo_props (bp : BreakPointModel) (s : ModelState) (now dur : ℚ)
    (h : s.direction ≠ Direction.Paused) :
    (s.skipAndPauseTo bp now dur).direction = Direction.Paused
    ∧ ((s.skipAndPauseTo bp now dur).directionEvents =
          s.directionEvents ++ [Direction.Paused]
        ∨ (s.skipAndPauseTo bp now dur).directionEvents =
          s.directionEvents ++ [Direction.Paused, Direction.Paused])
    ∧ (s.skipAndPauseTo bp now dur).cursor = dur
    ∧ (s.skipAndPauseTo bp now dur).animating = false
    ∧ (s.skipAndPauseTo bp now dur).pendingFrames = s.pendingFrames + 1 := by
  have hpa : (s.animateDirection bp now Direction.Paused).animating = false :=
    animateDirection_animating_paused bp s now h
  unfold ModelState.skipAndPauseTo
  rw [schedulerSingleFrame_not_animating _ (by simpa using hpa)]
  refine ⟨animateDirection_direction bp s now Direction.Paused, ?_, rfl, rfl, ?_⟩
  · have := animateDirection_directionEvents_cases_ne bp s now Direction.Paused h
    simpa using this
  · have := animateDirection_pendingFrames_paused bp s now h
    simpa using this

/-- Claim C7: a frame delivered while Paused records the delivered timestamp
as lastCursorTime and leaves the cursor unchanged (the dispatched cursor
notification carries the unchanged cursor), and after pause() a frame at an
arbitrarily later time leaves the cursor exactly where it was. -/
theorem c7_paused_frame_no_drift (bp : BreakPointModel) (s : ModelState) (ts : ℚ)
    (h : s.direction = Direction.Paused) (s2 : ModelState) (now ts2 : ℚ) :
    s.updateCursor bp ts = { s with lastCursorTime := ts }
    ∧ s.frame bp ts =
        { s with lastCursorTime := ts, cursorEvents := s.cursorEvents ++ [s.cursor] }
    ∧ ((s2.pause bp now).fireFrame bp ts2).cursor = (s2.pause bp now).cursor := by
  refine ⟨updateCursor_paused bp s ts h, ?_, ?_⟩
  · unfold ModelState.frame
    rw [updateCursor_paused bp s ts h]
  · exact fireFrame_paused_cursor bp _ ts2
      (by unfold ModelState.pause; exact animateDirection_direction bp s2 now Direction.Paused)

/-- Claim C10: when the direction already equals the command's requested
direction, stepForward and playForward (and symmetrically the backward
commands) still overwrite breakPointType (to Move, respectively
EntireMoveSequence) while everything else is untouched: no cursor
reconciliation, no notification, no scheduler change. -/
theorem c10_command_granularity_overwrite (bp : BreakPointModel) (s : ModelState) (now : ℚ) :
    (s.direction = Direction.Forwards →
      s.stepForward bp now = { s with breakPointType := BreakPointType.Move }
      ∧ s.playForward bp now = { s with breakPointType := BreakPointType.EntireMoveSequence })
    ∧ (s.direction = Direction.Backwards →
      s.stepBackward bp now = { s with breakPointType := BreakPointType.Move }
      ∧ s.playBackward bp now = { s with breakPointType := BreakPointType.EntireMoveSequence }) := by
  constructor
  · intro h
    constructor
    · unfold ModelState.stepForward
      exact animateDirection_self bp _ now _ (by simpa [ModelState.setBreakPointType] using h)
    · unfold ModelState.playForward
      exact animateDirection_self bp _ now _ (by simpa [ModelState.setBreakPointType] using h)
  · intro h
    constructor
    · unfold ModelState.stepBackward
      exact animateDirection_self bp _ now _ (by simpa [ModelState.setBreakPointType] using h)
    · unfold ModelState.playBackward
      exact animateDirection_self bp _ now _ (by simpa [ModelState.setBreakPointType] using h)


theorem skipAndPauseTo_fireFrame (bp : BreakPointModel) (s : ModelState) (now dur ts : ℚ)
    (h : s.direction ≠ Direction.Paused) :
    (s.skipAndPauseTo bp now dur).fireFrame bp ts =
      { s.skipAndPauseTo bp now dur with
          pendingFrames := s.pendingFrames,
          lastCursorTime := ts,
          cursorEvents := (s.skipAndPauseTo bp now dur).cursorEvents ++ [dur] } := by
  obtain ⟨h1, h2, h3, h4, h5⟩ := skipAndPauseTo_props bp s now dur h
  rw [fireFrame_paused_eq bp _ ts h1 h4 (by rw [h5]; exact Nat.succ_ne_zero _)]
  rw [h3, h5]
  norm_num
  exact h3.symm

/-- Claim C4 (amended): skipToStart while Forwards (a) sets direction Paused
and dispatches one or two Paused notifications, (b) sets the cursor to
exactly firstBreakPoint with no integration or clamping, (c) requests exactly
one new scheduled frame (pendingFrames increases by one) and each delivered
pending frame dispatches one cursor-changed notification carrying
firstBreakPoint without chaining a further request, and (d) scheduling does
not continue afterward (the scheduler stays stopped).  skipToEnd while
Backwards is symmetric with lastBreakPoint. -/
theorem c4_skip_semantics (bp : BreakPointModel) (s : ModelState) (now ts : ℚ) :
    (s.direction = Direction.Forwards →
      (s.skipToStart bp now).direction = Direction.Paused
      ∧ ((s.skipToStart bp now).directionEvents = s.directionEvents ++ [Direction.Paused]
          ∨ (s.skipToStart bp now).directionEvents =
              s.directionEvents ++ [Direction.Paused, Direction.Paused])
      ∧ (s.skipToStart bp now).cursor = bp.firstBreakPoint
      ∧ (s.skipToStart bp now).animating = false
      ∧ (s.skipToStart bp now).pendingFrames = s.pendingFrames + 1
      ∧ (s.skipToStart bp now).fireFrame bp ts =
          { s.skipToStart bp now with
              pendingFrames := s.pendingFrames,
              lastCursorTime := ts,
              cursorEvents := (s.skipToStart bp now).cursorEvents ++ [bp.firstBreakPoint] })
    ∧ (s.direction = Direction.Backwards →
      (s.skipToEnd bp now).direction = Direction.Paused
      ∧ ((s.skipToEnd bp now).directionEvents = s.directionEvents ++ [Direction.Paused]
          ∨ (s.skipToEnd bp now).directionEvents =
              s.directionEvents ++ [Direction.Paused, Direction.Paused])
      ∧ (s.skipToEnd bp now).cursor = bp.lastBreakPoint
      ∧ (s.skipToEnd bp now).animating = false
      ∧ (s.skipToEnd bp now).pendingFrames = s.pendingFrames + 1
      ∧ (s.skipToEnd bp now).fireFrame bp ts =
          { s.skipToEnd bp now with
              pendingFrames := s.pendingFrames,
              lastCursorTime := ts,
              cursorEvents := (s.skipToEnd bp now).cursorEvents ++ [bp.lastBreakPoint] }) := by
  constructor
  · intro h
    have hne : s.direction ≠ Direction.Paused := by rw [h]; simp
    unfold ModelState.skipToStart
    obtain ⟨h1, h2, h3, h4, h5⟩ := skipAndPauseTo_props bp s now bp.firstBreakPoint hne
    exact ⟨h1, h2, h3, h4, h5, skipAndPauseTo_fireFrame bp s now bp.firstBreakPoint ts hne⟩
  · intro h
    have hne : s.direction ≠ Direction.Paused := by rw [h]; simp
    unfold ModelState.skipToEnd
    obtain ⟨h1, h2, h3, h4, h5⟩ := skipAndPauseTo_props bp s now bp.lastBreakPoint hne
    exact ⟨h1, h2, h3, h4, h5, skipAndPauseTo_fireFrame bp s now bp.lastBreakPoint ts hne⟩

/-- Claim C5: in a non-paused per-frame update whose delivered timestamp is
earlier than the stored lastCursorTime, the elapsed time used for integration
is exactly 0 (never negative): the cursor does not move (given that the
breakpoint source does not report a breakpoint strictly behind the cursor in
the direction of motion) and lastCursorTime is set to the delivered
timestamp. -/
theorem c5_stale_timestamp_zero_elapsed (bp : BreakPointModel) (s : ModelState) (ts : ℚ)
    (hd : s.direction ≠ Direction.Paused) (hts : ts < s.lastCursorTime)
    (hbpF : s.direction = Direction.Forwards → s.cursor ≤ s.nextBreakPoint bp)
    (hbpB : s.direction = Direction.Backwards → s.nextBreakPoint bp ≤ s.cursor) :
    s.advancedCursor ts = s.cursor
    ∧ s.updateCursor bp ts = { s with lastCursorTime := ts } := by
  have hadv : s.advancedCursor ts = s.cursor := by
    unfold ModelState.advancedCursor
    rw [if_pos (by linarith : ts - s.lastCursorTime < 0)]
    ring
  have hc : ¬ (if s.direction = Direction.Forwards
      then s.advancedCursor ts > s.nextBreakPoint bp
      else s.advancedCursor ts < s.nextBreakPoint bp) := by
    by_cases hF : s.direction = Direction.Forwards
    · rw [if_pos hF, hadv]
      exact not_lt.mpr (hbpF hF)
    · rw [if_neg hF, hadv]
      have hB : s.direction = Direction.Backwards := by
        cases hdir : s.direction <;> simp_all
      exact not_lt.mpr (hbpB hB)
  refine ⟨hadv, ?_⟩
  rw [updateCursor_eq bp s ts hd, if_neg hc, hadv]

/-- Claim C6: stop() is idempotent and only clears the flag; after stop(), a
frame callback already requested from the host still runs the handler exactly
once, and chains no further request because the flag is checked after the
handler body (provided the handler itself does not restart the scheduler). -/
theorem c6_stop_in_flight_frame {σ : Type} (cb : Sched σ → ℚ → Sched σ) (fs : Sched σ) (ts : ℚ)
    (hp : fs.pending ≠ 0)
    (hcb : (cb { fs with animating := false, pending := fs.pending - 1 } ts).animating = false) :
    Sched.stop (Sched.stop fs) = Sched.stop fs
    ∧ Sched.stop fs = { fs with animating := false }
    ∧ Sched.fire cb (Sched.stop fs) ts =
        cb { fs with animating := false, pending := fs.pending - 1 } ts := by
  refine ⟨rfl, rfl, ?_⟩
  unfold Sched.fire Sched.stop
  rw [if_neg (by simpa using hp)]
  unfold Sched.animFrame
  rw [if_neg (by simpa using hcb)]

/-- Claim C9: singleFrame() equals start() immediately followed by stop();
from a non-scheduling state it requests exactly one host frame callback whose
handler run chains no further request (provided the handler does not restart
the scheduler), and from a state with a loop in flight it requests no new
callback and the loop stops after its very next in-flight callback. -/
theorem c9_singleFrame_start_stop {σ : Type} (cb : Sched σ → ℚ → Sched σ) (fs : Sched σ) (ts : ℚ) :
    Sched.singleFrame fs = Sched.stop (Sched.start fs)
    ∧ (fs.animating = false →
        (Sched.singleFrame fs).pending = fs.pending + 1
        ∧ (Sched.singleFrame fs).animating = false
        ∧ ((cb { fs with animating := false, pending := fs.pending } ts).animating = false →
            Sched.fire cb (Sched.singleFrame fs) ts =
              cb { fs with animating := false, pending := fs.pending } ts))
    ∧ (fs.animating = true →
        (Sched.singleFrame fs).pending = fs.pending
        ∧ (Sched.singleFrame fs).animating = false
        ∧ (fs.pending ≠ 0 →
            (cb { fs with animating := false, pending := fs.pending - 1 } ts).animating = false →
            Sched.fire cb (Sched.singleFrame fs) ts =
              cb { fs with animating := false, pending := fs.pending - 1 } ts)) := by
  refine ⟨rfl, ?_, ?_⟩
  · intro ha
    have hsf : Sched.singleFrame fs =
        { fs with animating := false, pending := fs.pending + 1 } := by
      unfold Sched.singleFrame Sched.start Sched.stop
      rw [if_neg (by simp [ha])]
    refine ⟨by rw [hsf], by rw [hsf], ?_⟩
    intro hcb
    rw [hsf]
    unfold Sched.fire
    rw [if_neg (by simp)]
    unfold Sched.animFrame
    simp only [Nat.add_sub_cancel]
    rw [if_neg (by simpa using hcb)]
  · intro ha
    have hsf : Sched.singleFrame fs = { fs with animating := false } := by
      unfold Sched.singleFrame Sched.start Sched.stop
      rw [if_pos (by simp [ha])]
    refine ⟨by rw [hsf], by rw [hsf], ?_⟩
    intro hp hcb
    rw [hsf]
    unfold Sched.fire
    rw [if_neg (by simpa using hp)]
    unfold Sched.animFrame
    rw [if_neg (by simpa using hcb)]

/-- Claim C8: registering a fresh observer succeeds and appends it;
registering the same observer again raises the duplicate-registration error
synchronously and leaves the listener sets unchanged; the observer receives
exactly one invocation per notification; and cursor-observer registration
does not affect the direction-listener set (and symmetrically). -/
theorem c8_duplicate_registration (d : Dispatcher) (o : ℕ) (c : ℚ) (dir : Direction)
    (h1 : o ∉ d.cursorObservers) (h2 : o ∉ d.directionObservers) :
    (d.registerCursorObserver o).1 = Except.ok ()
    ∧ (d.registerCursorObserver o).2.cursorObservers = d.cursorObservers ++ [o]
    ∧ (d.registerCursorObserver o).2.directionObservers = d.directionObservers
    ∧ ((d.registerCursorObserver o).2).registerCursorObserver o =
        (Except.error "Duplicate cursor observer added.", (d.registerCursorObserver o).2)
    ∧ (((d.registerCursorObserver o).2.animCursorChanged c).countP (fun p => p.1 == o)) = 1
    ∧ (d.registerDirectionObserver o).1 = Except.ok ()
    ∧ (d.registerDirectionObserver o).2.cursorObservers = d.cursorObservers
    ∧ ((d.registerDirectionObserver o).2).registerDirectionObserver o =
        (Except.error "Duplicate direction observer added.", (d.registerDirectionObserver o).2)
    ∧ (((d.registerDirectionObserver o).2.animDirectionChanged dir).countP (fun p => p.1 == o)) = 1 := by
  have hr1 : d.registerCursorObserver o =
      (Except.ok (), { d with cursorObservers := d.cursorObservers ++ [o] }) := by
    unfold Dispatcher.registerCursorObserver
    rw [if_neg h1]
  have hr2 : d.registerDirectionObserver o =
      (Except.ok (), { d with directionObservers := d.directionObservers ++ [o] }) := by
    unfold Dispatcher.registerDirectionObserver
    rw [if_neg h2]
  rw [hr1, hr2]
  refine ⟨rfl, rfl, rfl, ?_, ?_, rfl, rfl, ?_, ?_⟩
  · unfold Dispatcher.registerCursorObserver
    rw [if_pos (by simp)]
  · unfold Dispatcher.animCursorChanged
    rw [List.countP_map]
    have : (fun p => p.1 == o) ∘ (fun observer => ((observer, c) : ℕ × ℚ)) =
        (fun observer => observer == o) := rfl
    rw [this]
    simp [List.countP_append, List.countP_eq_zero.mpr, h1]
    intro a ha ha2
    exact h1 (ha2 ▸ ha)
  · unfold Dispatcher.registerDirectionObserver
    rw [if_pos (by simp)]
  · unfold Dispatcher.animDirectionChanged
    rw [List.countP_map]
    have : (fun p => p.1 == o) ∘ (fun observer => ((observer, dir) : ℕ × Direction)) =
        (fun observer => observer == o) := rfl
    rw [this]
    simp [List.countP_append, List.countP_eq_zero.mpr, h2]
    intro a ha ha2
    exact h2 (ha2 ▸ ha)


/-- Counterexample to claim C2 as stated: from a state whose direction is
already Forwards, calling playForward twice produces zero direction-changed
notifications, not exactly one. -/
theorem c2_exactly_one_notification_counterexample :
    (ModelState.playForward bpFar
        (ModelState.playForward bpFar { direction := Direction.Forwards } 0) 0).directionEvents = []
    ∧ ¬ ((ModelState.playForward bpFar
        (ModelState.playForward bpFar { direction := Direction.Forwards } 0) 0).directionEvents.length = 1) := by
  have h1 : ModelState.playForward bpFar ({ direction := Direction.Forwards } : ModelState) 0 =
      { direction := Direction.Forwards } := by
    unfold ModelState.playForward
    exact animateDirection_self bpFar _ 0 _ rfl
  rw [h1, h1]
  exact ⟨rfl, by simp⟩

/-- Counterexample to claim C3 as stated: playForward at time 0 followed by
pause at time 2 moves the cursor from 0 to 2 * 1.5 = 3, because pause
reconciles the elapsed wall-clock time under the old Forwards direction. -/
theorem c3_play_pause_round_trip_counterexample :
    (ModelState.pause bpFar (ModelState.playForward bpFar ({} : ModelState) 0) 2).cursor = 3
    ∧ ((3 : ℚ) ≠ 0) := by
  constructor
  · simp only [ModelState.playForward, ModelState.pause, ModelState.animateDirection,
      ModelState.updateCursor, ModelState.setBreakPointType, ModelState.setDirection,
      ModelState.schedulerStart, ModelState.schedulerStop, ModelState.timeScaling,
      Direction.toRat, tempo, bpFar]
    simp
    norm_num
  · norm_num

/-- Counterexample to claim C4 part (c) as stated: skipToStart while Forwards
with one frame already in flight from the running loop leaves two pending
frames, so two future cursor-changed notifications (not exactly one) carry
firstBreakPoint. -/
theorem c4_skip_semantics_counterexample :
    ((ModelState.fireFrame bpFar
        (ModelState.fireFrame bpFar
          (ModelState.skipToStart bpFar
            { cursor := 5, direction := Direction.Forwards, animating := true,
              pendingFrames := 1 } 0) 1) 2)).cursorEvents = [0, 0]
    ∧ ¬ (([0, 0] : List ℚ).length = 1) := by
  constructor
  · simp only [ModelState.skipToStart, ModelState.skipAndPauseTo, ModelState.animateDirection,
      ModelState.updateCursor, ModelState.setDirection, ModelState.schedulerStop,
      ModelState.schedulerStart, ModelState.schedulerSingleFrame, ModelState.fireFrame,
      ModelState.animFrame, ModelState.frame, ModelState.timeScaling, Direction.toRat,
      tempo, bpFar]
    simp
    norm_num
  · simp

/-- Witness for claim C2 at a concrete input: from the initial (paused) state,
a second playForward is a no-op and the pair dispatches exactly the one
Forwards notification. -/
theorem c2_repeated_command_idempotent_witness :
    MotionCommand.apply MotionCommand.playForwardCmd bpFar
        (MotionCommand.apply MotionCommand.playForwardCmd bpFar ({} : ModelState) 0) 1 =
      MotionCommand.apply MotionCommand.playForwardCmd bpFar ({} : ModelState) 0
    ∧ (MotionCommand.apply MotionCommand.playForwardCmd bpFar ({} : ModelState) 0).directionEvents =
        [Direction.Forwards] := by
  constructor
  · exact (c2_repeated_command_idempotent MotionCommand.playForwardCmd bpFar {} 0 1).1
  · have h := (c2_repeated_command_idempotent MotionCommand.playForwardCmd bpFar ({} : ModelState) 0 1).2.2
      (by simp [MotionCommand.dir]) (by rfl)
    simpa using h

/-- Witness for claim C3 at a concrete input: playForward and pause both at
time 10 from cursor 5 leave the cursor at 5. -/
theorem c3_play_pause_round_trip_witness :
    (ModelState.pause bpFar (ModelState.playForward bpFar { cursor := 5 } 10) 10).cursor = 5 := by
  exact c3_play_pause_round_trip bpFar { cursor := 5 } 10 10 rfl le_rfl
    (by norm_num [bpFar])

/-- Witness for claim C4 at a concrete input: skipToStart from a Forwards
state pauses, sets the cursor to firstBreakPoint and requests exactly one
frame. -/
theorem c4_skip_semantics_witness :
    (ModelState.skipToStart bpFar { direction := Direction.Forwards } 0).direction = Direction.Paused
    ∧ (ModelState.skipToStart bpFar { direction := Direction.Forwards } 0).cursor = bpFar.firstBreakPoint
    ∧ (ModelState.skipToStart bpFar { direction := Direction.Forwards } 0).pendingFrames = 0 + 1 := by
  obtain ⟨h1, h2, h3, h4, h5, h6⟩ := (c4_skip_semantics bpFar { direction := Direction.Forwards } 0 1).1 rfl
  exact ⟨h1, h3, h5⟩

/-- Witness for claim C5 at a concrete input: stored time 10, frame at time 3:
the cursor stays at 5 and lastCursorTime becomes 3. -/
theorem c5_stale_timestamp_zero_elapsed_witness :
    ModelState.updateCursor bpFar
        { cursor := 5, lastCursorTime := 10, direction := Direction.Forwards } 3 =
      { cursor := 5, lastCursorTime := 3, direction := Direction.Forwards } := by
  exact (c5_stale_timestamp_zero_elapsed bpFar { cursor := 5, lastCursorTime := 10, direction := Direction.Forwards } 3
    (by simp) (by norm_num) (fun _ => by norm_num [ModelState.nextBreakPoint, bpFar])
    (by simp)).2

/-- Witness for claim C6 at a concrete input: an identity callback with one
pending frame; after stop, firing runs the callback once and leaves no
pending request. -/
theorem c6_stop_in_flight_frame_witness :
    Sched.fire cbId (Sched.stop (⟨true, 1, ()⟩ : Sched Unit)) 5 =
      cbId { animating := false, pending := 0, inner := () } 5 := by
  exact (c6_stop_in_flight_frame cbId (⟨true, 1, ()⟩ : Sched Unit) 5 (by simp) (by rfl)).2.2

/-- Witness for claim C7 at a concrete input: a paused frame at time 4 only
records lastCursorTime 4. -/
theorem c7_paused_frame_no_drift_witness :
    ModelState.updateCursor bpFar ({} : ModelState) 4 = { lastCursorTime := (4 : ℚ) } := by
  exact (c7_paused_frame_no_drift bpFar {} 4 rfl {} 0 1).1

/-- Witness for claim C8 at a concrete input: observer 7 on an empty
dispatcher registers once and receives exactly one invocation. -/
theorem c8_duplicate_registration_witness :
    (Dispatcher.registerCursorObserver ⟨[], []⟩ 7).1 = Except.ok ()
    ∧ ((Dispatcher.registerCursorObserver ⟨[], []⟩ 7).2.animCursorChanged 1).countP
        (fun p => p.1 == 7) = 1 := by
  have h := c8_duplicate_registration ⟨[], []⟩ 7 1 Direction.Forwards (by simp) (by simp)
  exact ⟨h.1, h.2.2.2.2.1⟩

/-- Witness for claim C9 at a concrete input: singleFrame from an idle
scheduler requests exactly one frame, and firing it chains nothing. -/
theorem c9_singleFrame_start_stop_witness :
    (Sched.singleFrame (⟨false, 0, ()⟩ : Sched Unit)).pending = 0 + 1
    ∧ Sched.fire cbId (Sched.singleFrame (⟨false, 0, ()⟩ : Sched Unit)) 3 =
        cbId { animating := false, pending := 0, inner := () } 3 := by
  obtain ⟨-, h2, -⟩ := c9_singleFrame_start_stop cbId (⟨false, 0, ()⟩ : Sched Unit) 3
  obtain ⟨ha, hb, hc⟩ := h2 rfl
  exact ⟨ha, hc (by rfl)⟩

/-- Witness for claim C10 at a concrete input: stepForward while already
Forwards only rewrites the granularity to Move. -/
theorem c10_command_granularity_overwrite_witness :
    ModelState.stepForward bpFar { direction := Direction.Forwards } 0 =
      { direction := Direction.Forwards, breakPointType := BreakPointType.Move } := by
  exact ((c10_command_granularity_overwrite bpFar { direction := Direction.Forwards } 0).1 rfl).1
